import Mathlib

/-!
Verification of the Citra `DiskArchive` / `DiskFile` / `DiskDirectory`
filesystem backend (core/file_sys/disk_archive.cpp).

The host filesystem is modelled as an association list from host path
strings to nodes (regular files with byte content, or directories).
Host calls that can fail for reasons outside the program's control
(`FileUtil::Delete`, `FileUtil::CreateEmptyFile`, `IOFile::Seek`,
`IOFile::WriteBytes`, the `fopen` behind `IOFile`) are given their
outcomes by a `HostOracle`, so theorems quantify over every possible
host behaviour.
-/

namespace FileSys

/-- Error description codes used by disk_archive.cpp. -/
inductive ErrorDescription
  | FS_NotAFile
  | FS_NotFound
  | FS_AlreadyExists
  | FS_InvalidOpenFlags
  | TooLarge
  deriving DecidableEq, Repr

inductive ErrorModule
  | FS
  deriving DecidableEq, Repr

inductive ErrorSummary
  | Canceled
  | NotFound
  | NothingHappened
  | OutOfResource
  deriving DecidableEq, Repr

inductive ErrorLevel
  | Status
  | Info
  deriving DecidableEq, Repr

/-- `ResultCode`: either the distinguished success value (`RESULT_SUCCESS`)
or a structured error built from the four fields used at each return site. -/
inductive ResultCode
  | success
  | error (d : ErrorDescription) (m : ErrorModule) (s : ErrorSummary) (l : ErrorLevel)
  deriving DecidableEq, Repr

/-- `ResultCode::IsError()`. -/
def ResultCode.IsError : ResultCode → Bool
  | .success => false
  | .error _ _ _ _ => true

/-- A node of the host filesystem: a regular file with its byte content,
or a directory. -/
inductive FSNode
  | file (content : List Nat)
  | dir
  deriving DecidableEq, Repr

/-- The host backing store: host path strings mapped to nodes. -/
abbrev HostFS := List (String × FSNode)

/-- Outcomes of the fallible host primitives, fixed in advance so that a
single run of an operation is deterministic while theorems range over
every host behaviour. -/
structure HostOracle where
  /-- whether `FileUtil::Delete` succeeds -/
  delete_ok : Bool
  /-- whether `FileUtil::CreateEmptyFile` succeeds -/
  create_ok : Bool
  /-- whether `IOFile::Seek` succeeds -/
  seek_ok : Bool
  /-- the count returned by `IOFile::WriteBytes(_, 1)` -/
  write_count : Nat
  /-- whether the `fopen` behind `IOFile` in `DiskFile::Open` succeeds -/
  open_ok : Bool
  deriving DecidableEq, Repr

namespace FileUtil

/-- First-match lookup of a host path in the store. -/
def lookupPath (fs : HostFS) (p : String) : Option FSNode :=
  match fs with
  | [] => none
  | (q, n) :: rest => if q = p then some n else lookupPath rest p

/-- Replace (or add) the node at a host path. Removes any stale binding so
that `lookupPath` afterwards yields exactly the new node. -/
def setPath (fs : HostFS) (p : String) (n : FSNode) : HostFS :=
  (p, n) :: fs.filter (fun e => e.1 ≠ p)

/-- Remove every binding at a host path. -/
def removePath (fs : HostFS) (p : String) : HostFS :=
  fs.filter (fun e => e.1 ≠ p)

/-- `FileUtil::IsDirectory`. -/
def IsDirectory (fs : HostFS) (p : String) : Bool :=
  match lookupPath fs p with
  | some .dir => true
  | _ => false

/-- `FileUtil::Exists`. -/
def Exists (fs : HostFS) (p : String) : Bool :=
  (lookupPath fs p).isSome

/-- `FileUtil::Delete`: the host may refuse; on success the path is gone. -/
def Delete (host : HostOracle) (fs : HostFS) (p : String) : Bool × HostFS :=
  if host.delete_ok then (true, removePath fs p) else (false, fs)

/-- `FileUtil::CreateEmptyFile`: the host may refuse; on success an empty
regular file occupies the path. -/
def CreateEmptyFile (host : HostOracle) (fs : HostFS) (p : String) : Bool × HostFS :=
  if host.create_ok then (true, setPath fs p (.file [])) else (false, fs)

end FileUtil

/-- Guest-side path value; `AsString` is its flattened string form. -/
structure Path where
  str : String
  deriving DecidableEq, Repr

def Path.AsString (p : Path) : String := p.str

/-- Open-mode descriptor with independent read/write/create flags. -/
structure Mode where
  read_flag : Bool
  write_flag : Bool
  create_flag : Bool
  deriving DecidableEq, Repr

/-- An archive instance owns one host mount root. -/
structure DiskArchive where
  mount_point : String
  deriving DecidableEq, Repr

/-- `DiskArchive::DeleteFile`. Returns the result code and the store as the
host leaves it. -/
def DiskArchive.DeleteFile (arch : DiskArchive) (host : HostOracle) (fs : HostFS)
    (path : Path) : ResultCode × HostFS :=
  let file_path := arch.mount_point ++ path.AsString
  if FileUtil.IsDirectory fs file_path then
    (.error .FS_NotAFile .FS .Canceled .Status, fs)
  else if ¬ FileUtil.Exists fs file_path then
    (.error .FS_NotFound .FS .NotFound .Status, fs)
  else
    let r := FileUtil.Delete host fs file_path
    if r.1 then (.success, r.2)
    else (.error .FS_NotAFile .FS .Canceled .Status, r.2)

/-- `DiskArchive::CreateFile`. For `size > 0` the code opens the path with
mode "wb" (creating a zero-length file), seeks to `size - 1` and writes one
null byte; success requires the seek to succeed and the write to report
exactly one byte written, in which case the host file has logical size
`size` (all zeros). -/
def DiskArchive.CreateFile (arch : DiskArchive) (host : HostOracle) (fs : HostFS)
    (path : Path) (size : Nat) : ResultCode × HostFS :=
  let full_path := arch.mount_point ++ path.AsString
  if FileUtil.IsDirectory fs full_path then
    (.error .FS_NotAFile .FS .Canceled .Status, fs)
  else if FileUtil.Exists fs full_path then
    (.error .FS_AlreadyExists .FS .NothingHappened .Status, fs)
  else if size = 0 then
    -- the boolean returned by CreateEmptyFile is discarded
    (.success, (FileUtil.CreateEmptyFile host fs full_path).2)
  else
    let fs2 := FileUtil.setPath fs full_path (.file [])
    if host.seek_ok ∧ host.write_count = 1 then
      (.success, FileUtil.setPath fs2 full_path (.file (List.replicate size 0)))
    else
      (.error .TooLarge .FS .OutOfResource .Info, fs2)

/-- A `DiskFile` handle: the resolved host path and the mode it was
constructed with. -/
structure DiskFile where
  path : String
  mode : Mode
  deriving DecidableEq, Repr

/-- The `DiskFile` constructor: plain concatenation of the mount point and
the guest path's string form, with no normalization. -/
def DiskFile.make (archive : DiskArchive) (path : Path) (mode : Mode) : DiskFile :=
  { path := archive.mount_point ++ path.AsString, mode := mode }

/-- `DiskFile::Open`. Returns the result code and the store as the host
leaves it (`CreateEmptyFile` may have run before the `fopen` is attempted). -/
def DiskFile.Open (f : DiskFile) (host : HostOracle) (fs : HostFS) : ResultCode × HostFS :=
  if FileUtil.IsDirectory fs f.path then
    (.error .FS_NotAFile .FS .Canceled .Status, fs)
  else if f.mode.create_flag ∧ ¬ f.mode.read_flag ∧ ¬ f.mode.write_flag then
    (.error .FS_InvalidOpenFlags .FS .Canceled .Status, fs)
  else if ¬ FileUtil.Exists fs f.path ∧ ¬ f.mode.create_flag then
    (.error .FS_NotFound .FS .NotFound .Status, fs)
  else
    -- when the path does not exist (so create_flag is set), create it first;
    -- the boolean returned by CreateEmptyFile is discarded
    let fs1 := if ¬ FileUtil.Exists fs f.path then
                 (FileUtil.CreateEmptyFile host fs f.path).2
               else fs
    if host.open_ok then (.success, fs1)
    else (.error .FS_NotFound .FS .NotFound .Status, fs1)

/-- `DiskArchive::OpenFile`: builds the handle, runs its `Open`, and
propagates the open error. -/
def DiskArchive.OpenFile (arch : DiskArchive) (host : HostOracle) (fs : HostFS)
    (path : Path) (mode : Mode) : Except ResultCode DiskFile × HostFS :=
  let file := DiskFile.make arch path mode
  let r := file.Open host fs
  if r.1.IsError then (.error r.1, r.2) else (.ok file, r.2)

/-- `DiskFile::Read` on an opened handle whose host file has the given byte
content: `fseek(offset)` then `ReadBytes(buffer, length)`, which returns the
bytes available from `offset`, at most `length` of them. -/
def DiskFile.Read (f : DiskFile) (content : List Nat) (offset length : Nat) :
    Except ResultCode (List Nat) :=
  if ¬ f.mode.read_flag ∧ ¬ f.mode.write_flag then
    .error (.error .FS_InvalidOpenFlags .FS .Canceled .Status)
  else
    .ok ((content.drop offset).take length)

/-- `DiskFile::Write` on an opened handle: `fseek(offset)` then a write of
`length` bytes from the buffer; returns the count written and the new
content (a gap left by seeking past the end reads back as zeros). -/
def DiskFile.Write (f : DiskFile) (content : List Nat) (offset length : Nat)
    (flush : Bool) (buffer : List Nat) : Except ResultCode (Nat × List Nat) :=
  if ¬ f.mode.write_flag then
    .error (.error .FS_InvalidOpenFlags .FS .Canceled .Status)
  else
    let written := buffer.take length
    let newContent := content.take offset
      ++ List.replicate (offset - content.length) 0
      ++ written
      ++ content.drop (offset + written.length)
    .ok (written.length, newContent)

/-- One child as enumerated by the host (`FileUtil::FSTEntry`): its name,
size and whether it is a directory. -/
structure FSTEntry where
  virtualName : String
  size : Nat
  isDirectory : Bool
  deriving DecidableEq, Repr

/-- A directory-listing record as produced by `DiskDirectory::Read`.
The fixed-width UTF-16 `filename` copy and the 8.3 `short_name`/`extension`
split are computed by code outside this translation unit
(`FILENAME_LENGTH`, `FileUtil::SplitFilename83`) and are not modelled;
the attribute bits and the size are set directly by `DiskDirectory::Read`. -/
structure Entry where
  is_directory : Bool
  is_hidden : Bool
  is_read_only : Bool
  is_archive : Bool
  file_size : Nat
  deriving DecidableEq, Repr

/-- The entry `DiskDirectory::Read` builds for one child:
`is_hidden` is `filename[0] == '.'` (the name begins with a dot; on the
empty name the C++ `operator[]` yields the NUL character and this is
false, as here), `is_read_only` is always `0`, and `is_archive` is
`!file.isDirectory`. -/
def makeEntry (fe : FSTEntry) : Entry :=
  { is_directory := fe.isDirectory
    is_hidden := fe.virtualName.get 0 == '.'
    is_read_only := false
    is_archive := ! fe.isDirectory
    file_size := fe.size }

/-- A directory cursor: the resolved host path, the snapshot of children
taken at `Open`, and the cursor position (`children_iterator`). -/
structure DiskDirectory where
  path : String
  children : List FSTEntry
  children_iterator : Nat
  deriving DecidableEq, Repr

/-- The `DiskDirectory` constructor: plain concatenation of the mount point
and the guest path's string form, with no normalization. -/
def DiskDirectory.make (archive : DiskArchive) (path : Path) : DiskDirectory :=
  { path := archive.mount_point ++ path.AsString
    children := []
    children_iterator := 0 }

/-- `DiskDirectory::Open`: fails unless the resolved path is a directory;
otherwise captures the host enumeration (`FileUtil::ScanDirectoryTree`,
supplied here as `listing`) and resets the cursor to the first child. -/
def DiskDirectory.Open (d : DiskDirectory) (fs : HostFS) (listing : List FSTEntry) :
    Bool × DiskDirectory :=
  if ¬ FileUtil.IsDirectory fs d.path then (false, d)
  else (true, { d with children := listing, children_iterator := 0 })

/-- The `while (entries_read < count && it != end)` loop of
`DiskDirectory::Read`: returns the entries produced and the final
iterator position. -/
def readLoop (children : List FSTEntry) (idx count : Nat) : List Entry × Nat :=
  match count with
  | 0 => ([], idx)
  | c + 1 =>
    match children[idx]? with
    | none => ([], idx)
    | some fe =>
      let r := readLoop children (idx + 1) c
      (makeEntry fe :: r.1, r.2)

/-- `DiskDirectory::Read`: returns `entries_read`, the entries written to
the output buffer, and the cursor with its iterator advanced. -/
def DiskDirectory.Read (d : DiskDirectory) (count : Nat) :
    Nat × List Entry × DiskDirectory :=
  let r := readLoop d.children d.children_iterator count
  (r.1.length, r.1, { d with children_iterator := r.2 })

/-- `j` successive `Read(count=1)` calls: the concatenation of their outputs
and the final cursor. -/
def readOneSeq (d : DiskDirectory) : Nat → List Entry × DiskDirectory
  | 0 => ([], d)
  | j + 1 =>
    let r := d.Read 1
    let rest := readOneSeq r.2.2 j
    (r.2.1 ++ rest.1, rest.2)

/-! ### Basic facts about the host-store model -/

theorem lookupPath_filter_self (fs : HostFS) (p : String) :
    FileUtil.lookupPath (fs.filter (fun e => e.1 ≠ p)) p = none := by
  induction fs with
  | nil => rfl
  | cons e t ih =>
    obtain ⟨q, n⟩ := e
    by_cases h : q = p
    · simpa [List.filter_cons, h] using ih
    · rw [List.filter_cons, if_pos (by simp [h]), FileUtil.lookupPath, if_neg h]
      exact ih

theorem lookupPath_removePath (fs : HostFS) (p : String) :
    FileUtil.lookupPath (FileUtil.removePath fs p) p = none :=
  lookupPath_filter_self fs p

theorem lookupPath_setPath (fs : HostFS) (p : String) (n : FSNode) :
    FileUtil.lookupPath (FileUtil.setPath fs p n) p = some n := by
  simp [FileUtil.setPath, FileUtil.lookupPath]

theorem exists_removePath (fs : HostFS) (p : String) :
    FileUtil.Exists (FileUtil.removePath fs p) p = false := by
  simp [FileUtil.Exists, lookupPath_removePath]

theorem isDirectory_false_of_exists_false (fs : HostFS) (p : String)
    (h : FileUtil.Exists fs p = false) : FileUtil.IsDirectory fs p = false := by
  unfold FileUtil.Exists at h
  unfold FileUtil.IsDirectory
  cases hl : FileUtil.lookupPath fs p with
  | none => rfl
  | some n => rw [hl] at h; simp at h

/-! ### The directory-read loop -/

theorem readLoop_eq (children : List FSTEntry) :
    ∀ count idx, readLoop children idx count =
      (((children.drop idx).take count).map makeEntry,
       idx + ((children.drop idx).take count).length) := by
  intro count
  induction count with
  | zero => intro idx; simp [readLoop]
  | succ c ih =>
    intro idx
    cases h : children[idx]? with
    | none =>
      have hle : children.length ≤ idx := List.getElem?_eq_none_iff.mp h
      have hd : children.drop idx = [] := List.drop_eq_nil_of_le hle
      simp [readLoop, h, hd]
    | some fe =>
      have hlt : idx < children.length := by
        by_contra hc
        push_neg at hc
        rw [List.getElem?_eq_none hc] at h
        cases h
      have hd : children.drop idx = children[idx] :: children.drop (idx + 1) :=
        List.drop_eq_getElem_cons hlt
      have hfe : children[idx] = fe := by
        have h2 := List.getElem?_eq_getElem hlt
        rw [h] at h2
        exact (Option.some.inj h2).symm
      simp [readLoop, h, ih (idx + 1), hd, hfe, Prod.ext_iff]
      omega

theorem readOneSeq_eq (p : String) (children : List FSTEntry) :
    ∀ j idx, readOneSeq ⟨p, children, idx⟩ j =
      (((children.drop idx).take j).map makeEntry,
       ⟨p, children, idx + ((children.drop idx).take j).length⟩) := by
  intro j
  induction j with
  | zero => intro idx; simp [readOneSeq]
  | succ n ih =>
    intro idx
    rw [readOneSeq]
    simp only [DiskDirectory.Read, readLoop_eq]
    cases hd : children.drop idx with
    | nil =>
      have hd1 : children.drop (idx + (List.take 1 ([] : List FSTEntry)).length) = [] := by
        simpa using hd
      simp [ih, hd, hd1]
    | cons a t =>
      have ht : children.drop (idx + 1) = t := by
        have h2 : children.drop (idx + 1) = (children.drop idx).drop 1 := by
          rw [List.drop_drop, Nat.add_comm]
        rw [h2, hd]
        rfl
      simp [ih, hd, ht, Prod.ext_iff]
      omega

/-! ### Spec-side definitions for the resolution invariant (C9) -/

/-- Following the spec's invariant wording: guest-path resolution is
`mount_point + path_as_string`, plain string concatenation, no
normalization. -/
def specResolve (arch : DiskArchive) (path : Path) : String :=
  arch.mount_point ++ path.AsString

/-- `DiskArchive::DeleteFile` re-expressed as acting on an arbitrary
already-resolved host path, for comparison with the resolution invariant. -/
def DeleteFileAt (host : HostOracle) (fs : HostFS) (file_path : String) :
    ResultCode × HostFS :=
  if FileUtil.IsDirectory fs file_path then
    (.error .FS_NotAFile .FS .Canceled .Status, fs)
  else if ¬ FileUtil.Exists fs file_path then
    (.error .FS_NotFound .FS .NotFound .Status, fs)
  else
    let r := FileUtil.Delete host fs file_path
    if r.1 then (.success, r.2)
    else (.error .FS_NotAFile .FS .Canceled .Status, r.2)

/-- `DiskArchive::CreateFile` re-expressed as acting on an arbitrary
already-resolved host path, for comparison with the resolution invariant. -/
def CreateFileAt (host : HostOracle) (fs : HostFS) (full_path : String)
    (size : Nat) : ResultCode × HostFS :=
  if FileUtil.IsDirectory fs full_path then
    (.error .FS_NotAFile .FS .Canceled .Status, fs)
  else if FileUtil.Exists fs full_path then
    (.error .FS_AlreadyExists .FS .NothingHappened .Status, fs)
  else if size = 0 then
    (.success, (FileUtil.CreateEmptyFile host fs full_path).2)
  else
    let fs2 := FileUtil.setPath fs full_path (.file [])
    if host.seek_ok ∧ host.write_count = 1 then
      (.success, FileUtil.setPath fs2 full_path (.file (List.replicate size 0)))
    else
      (.error .TooLarge .FS .OutOfResource .Info, fs2)

/-! ### Claim theorems -/

/-- Claim C7: directory listing is exhaustive and non-repeating.
`Read(count)` fills exactly the next `min count (k - cursor)` snapshot
children in snapshot order and advances the cursor by that number; on a
fresh cursor, `j` successive `Read(1)` calls yield the first `j` children
(each child exactly once, in order, once `j` reaches the child count), and
every `Read(1)` after the `k`-th returns zero entries. -/
theorem c7_directory_read_exhaustive (p : String) (children : List FSTEntry)
    (idx count j : Nat) :
    ((⟨p, children, idx⟩ : DiskDirectory).Read count).1
        = ((children.drop idx).take count).length ∧
    ((⟨p, children, idx⟩ : DiskDirectory).Read count).2.1
        = ((children.drop idx).take count).map makeEntry ∧
    ((⟨p, children, idx⟩ : DiskDirectory).Read count).1 ≤ count ∧
    ((⟨p, children, idx⟩ : DiskDirectory).Read count).2.2
        = ⟨p, children, idx + ((⟨p, children, idx⟩ : DiskDirectory).Read count).1⟩ ∧
    (readOneSeq ⟨p, children, 0⟩ j).1 = (children.take j).map makeEntry ∧
    (readOneSeq ⟨p, children, 0⟩ j).2 = ⟨p, children, min j children.length⟩ ∧
    ((readOneSeq ⟨p, children, 0⟩ (children.length + j)).2.Read 1).1 = 0 ∧
    (readOneSeq ⟨p, children, 0⟩ children.length).1 = children.map makeEntry := by
  have htot : children.take (children.length + j) = children :=
    List.take_of_length_le (by omega)
  refine ⟨?_, ?_, ?_, ?_, ?_, ?_, ?_, ?_⟩
  · simp [DiskDirectory.Read, readLoop_eq]
  · simp [DiskDirectory.Read, readLoop_eq]
  · simp only [DiskDirectory.Read, readLoop_eq, List.length_map, List.length_take]
    omega
  · simp [DiskDirectory.Read, readLoop_eq]
  · simp [readOneSeq_eq]
  · simp [readOneSeq_eq, List.length_take]
  · simp [readOneSeq_eq, htot, DiskDirectory.Read, readLoop_eq, List.drop_length]
  · simp [readOneSeq_eq]

/-- Claim C7 witness: on a concrete two-child snapshot, `Read(5)` reports
two entries, and a third `Read(1)` after two `Read(1)` calls returns zero
entries. -/
theorem c7_witness :
    ((⟨"/d", [⟨"a", 1, false⟩, ⟨".b", 2, true⟩], 0⟩ : DiskDirectory).Read 5).1 = 2 ∧
    ((readOneSeq ⟨"/d", [⟨"a", 1, false⟩, ⟨".b", 2, true⟩], 0⟩ 2).2.Read 1).1 = 0 := by
  have h := c7_directory_read_exhaustive "/d" [⟨"a", 1, false⟩, ⟨".b", 2, true⟩] 0 5 0
  refine ⟨?_, ?_⟩
  · rw [h.1]; rfl
  · exact h.2.2.2.2.2.2.1

/-- Claim C8: every entry the cursor produces comes from a snapshot child,
with `is_hidden` true iff the child's name begins with `.`, `is_archive`
true iff the child is not a directory, and `is_read_only` always false. -/
theorem c8_entry_attribute_bits (p : String) (children : List FSTEntry)
    (idx count : Nat) :
    ∀ e ∈ ((⟨p, children, idx⟩ : DiskDirectory).Read count).2.1,
      ∃ fe ∈ children,
        e.is_directory = fe.isDirectory ∧
        e.is_hidden = (fe.virtualName.get 0 == '.') ∧
        e.is_read_only = false ∧
        e.is_archive = (! fe.isDirectory) ∧
        e.file_size = fe.size := by
  intro e he
  have hr : ((⟨p, children, idx⟩ : DiskDirectory).Read count).2.1
      = ((children.drop idx).take count).map makeEntry := by
    simp [DiskDirectory.Read, readLoop_eq]
  rw [hr] at he
  obtain ⟨fe, hfe, rfl⟩ := List.mem_map.mp he
  exact ⟨fe, List.mem_of_mem_drop (List.mem_of_mem_take hfe),
    rfl, rfl, rfl, rfl, rfl⟩

/-- Claim C8 witness: a concrete hidden non-directory child produces an
entry with `is_hidden = true`, `is_archive = true`, `is_read_only = false`. -/
theorem c8_witness :
    (⟨false, true, false, true, 5⟩ : Entry)
        ∈ ((⟨"/d", [⟨".h", 5, false⟩], 0⟩ : DiskDirectory).Read 1).2.1 ∧
    ∃ fe ∈ [(⟨".h", 5, false⟩ : FSTEntry)],
      (⟨false, true, false, true, 5⟩ : Entry).is_directory = fe.isDirectory ∧
      (⟨false, true, false, true, 5⟩ : Entry).is_hidden
          = (fe.virtualName.get 0 == '.') ∧
      (⟨false, true, false, true, 5⟩ : Entry).is_read_only = false ∧
      (⟨false, true, false, true, 5⟩ : Entry).is_archive = (! fe.isDirectory) ∧
      (⟨false, true, false, true, 5⟩ : Entry).file_size = fe.size := by
  constructor
  · decide
  · exact c8_entry_attribute_bits "/d" [⟨".h", 5, false⟩] 0 1
      ⟨false, true, false, true, 5⟩ (by decide)

/-- Claim C9: every operation resolves its guest path to exactly
`mount_point ++ path-as-string`, by plain concatenation with no
normalization; parent-directory segments pass through unchanged. -/
theorem c9_resolution_is_plain_concatenation (arch : DiskArchive) (path : Path)
    (mode : Mode) (host : HostOracle) (fs : HostFS) (size : Nat) :
    specResolve arch path = arch.mount_point ++ path.str ∧
    (DiskFile.make arch path mode).path = specResolve arch path ∧
    (DiskDirectory.make arch path).path = specResolve arch path ∧
    arch.DeleteFile host fs path = DeleteFileAt host fs (specResolve arch path) ∧
    arch.CreateFile host fs path size
        = CreateFileAt host fs (specResolve arch path) size ∧
    (∀ f, (arch.OpenFile host fs path mode).1 = Except.ok f →
       f.path = specResolve arch path) ∧
    (DiskFile.make ⟨"/mnt"⟩ ⟨"/../../etc/passwd"⟩ mode).path
        = "/mnt/../../etc/passwd" := by
  refine ⟨rfl, rfl, rfl, rfl, rfl, ?_, rfl⟩
  intro f h
  by_cases hE : ((DiskFile.make arch path mode).Open host fs).1.IsError = true
  · simp [DiskArchive.OpenFile, hE] at h
  · simp [DiskArchive.OpenFile, hE] at h
    rw [← h]
    rfl

/-- Claim C9 witness: a concrete successful `OpenFile` hands back a handle
whose host path is the plain concatenation of mount point and guest path. -/
theorem c9_witness :
    (⟨"/mnt/a", ⟨true, false, false⟩⟩ : DiskFile).path
      = specResolve ⟨"/mnt"⟩ ⟨"/a"⟩ := by
  exact (c9_resolution_is_plain_concatenation ⟨"/mnt"⟩ ⟨"/a"⟩ ⟨true, false, false⟩
      ⟨true, true, true, 1, true⟩ [("/mnt/a", .file [])] 0).2.2.2.2.2.1
    ⟨"/mnt/a", ⟨true, false, false⟩⟩ rfl

/-- Claim C1: `CreateFile` fails `NotAFile` on a directory, `AlreadyExists`
on an existing file, succeeds (creating an empty file) for `size == 0`, and
for `size > 0` succeeds exactly when the seek to `size - 1` and the
one-byte write both succeed — leaving a size-`size` all-zero file — and
otherwise fails `TooLarge`/out-of-resource. -/
theorem c1_createFile_semantics (arch : DiskArchive) (host : HostOracle)
    (fs : HostFS) (path : Path) (size : Nat) :
    (FileUtil.IsDirectory fs (arch.mount_point ++ path.AsString) = true →
       arch.CreateFile host fs path size
         = (.error .FS_NotAFile .FS .Canceled .Status, fs)) ∧
    (FileUtil.IsDirectory fs (arch.mount_point ++ path.AsString) = false →
     FileUtil.Exists fs (arch.mount_point ++ path.AsString) = true →
       arch.CreateFile host fs path size
         = (.error .FS_AlreadyExists .FS .NothingHappened .Status, fs)) ∧
    (FileUtil.Exists fs (arch.mount_point ++ path.AsString) = false → size = 0 →
       (arch.CreateFile host fs path size).1 = ResultCode.success ∧
       (host.create_ok = true →
         FileUtil.lookupPath (arch.CreateFile host fs path size).2
             (arch.mount_point ++ path.AsString) = some (.file []))) ∧
    (FileUtil.Exists fs (arch.mount_point ++ path.AsString) = false → 0 < size →
       ((arch.CreateFile host fs path size).1 = ResultCode.success
          ↔ host.seek_ok = true ∧ host.write_count = 1) ∧
       (host.seek_ok = true → host.write_count = 1 →
         FileUtil.lookupPath (arch.CreateFile host fs path size).2
             (arch.mount_point ++ path.AsString)
           = some (.file (List.replicate size 0))) ∧
       (¬ (host.seek_ok = true ∧ host.write_count = 1) →
         (arch.CreateFile host fs path size).1
           = ResultCode.error .TooLarge .FS .OutOfResource .Info)) := by
  refine ⟨?_, ?_, ?_, ?_⟩
  · intro h
    simp [DiskArchive.CreateFile, h]
  · intro h1 h2
    simp [DiskArchive.CreateFile, h1, h2]
  · intro h1 h2
    have hd := isDirectory_false_of_exists_false fs _ h1
    subst h2
    refine ⟨by simp [DiskArchive.CreateFile, hd, h1], ?_⟩
    intro hc
    simp [DiskArchive.CreateFile, hd, h1, FileUtil.CreateEmptyFile, hc,
      lookupPath_setPath]
  · intro h1 hsz
    have hd := isDirectory_false_of_exists_false fs _ h1
    have hsz0 : ¬ size = 0 := by omega
    refine ⟨?_, ?_, ?_⟩
    · by_cases hsw : host.seek_ok = true ∧ host.write_count = 1 <;>
        simp [DiskArchive.CreateFile, hd, h1, hsz0, hsw]
    · intro hs hw
      simp [DiskArchive.CreateFile, hd, h1, hsz0, hs, hw, lookupPath_setPath]
    · intro hsw
      simp [DiskArchive.CreateFile, hd, h1, hsz0, hsw]

/-- Claim C1 witness: on an empty store with a cooperative host,
`CreateFile("/a", 3)` succeeds and leaves a three-zero-byte file. -/
theorem c1_witness :
    (DiskArchive.CreateFile ⟨"/mnt"⟩ ⟨true, true, true, 1, true⟩ [] ⟨"/a"⟩ 3).1
        = ResultCode.success ∧
    FileUtil.lookupPath
        (DiskArchive.CreateFile ⟨"/mnt"⟩ ⟨true, true, true, 1, true⟩ [] ⟨"/a"⟩ 3).2
        "/mnt/a" = some (.file [0, 0, 0]) := by
  have h := (c1_createFile_semantics ⟨"/mnt"⟩ ⟨true, true, true, 1, true⟩ []
      ⟨"/a"⟩ 3).2.2.2 rfl (by omega)
  exact ⟨h.1.mpr ⟨rfl, rfl⟩, h.2.1 rfl rfl⟩

/-- Claim C2 counterexample: with a directory at the resolved path, a
create-only mode fails `NotAFile`, not `InvalidOpenFlags`, because the
directory check runs before the flags check. -/
theorem c2_counterexample :
    ((DiskFile.make ⟨"/mnt"⟩ ⟨"/a"⟩ ⟨false, false, true⟩).Open
        ⟨true, true, true, 1, true⟩ [("/mnt/a", .dir)]).1
      = ResultCode.error .FS_NotAFile .FS .Canceled .Status ∧
    ResultCode.error .FS_NotAFile .FS .Canceled .Status
      ≠ ResultCode.error .FS_InvalidOpenFlags .FS .Canceled .Status :=
  ⟨rfl, by decide⟩

/-- Claim C2 (amended): a create-only mode (create set, read and write
unset) makes `Open` fail `InvalidOpenFlags` whenever the resolved path is
not a directory — regardless of whether the path exists; when a directory
occupies the path, `Open` fails `NotAFile` instead. -/
theorem c2_create_only_invalid_open_flags (arch : DiskArchive)
    (host : HostOracle) (fs : HostFS) (path : Path) (mode : Mode)
    (hc : mode.create_flag = true) (hr : mode.read_flag = false)
    (hw : mode.write_flag = false)
    (hd : FileUtil.IsDirectory fs (arch.mount_point ++ path.AsString) = false) :
    (DiskFile.make arch path mode).Open host fs
      = (.error .FS_InvalidOpenFlags .FS .Canceled .Status, fs) := by
  simp [DiskFile.make, DiskFile.Open, hd, hc, hr, hw]

/-- Claim C2 witness: create-only mode on a nonexistent path fails
`InvalidOpenFlags`. -/
theorem c2_witness :
    (DiskFile.make ⟨"/mnt"⟩ ⟨"/a"⟩ ⟨false, false, true⟩).Open
        ⟨true, true, true, 1, true⟩ []
      = (.error .FS_InvalidOpenFlags .FS .Canceled .Status, []) :=
  c2_create_only_invalid_open_flags ⟨"/mnt"⟩ ⟨true, true, true, 1, true⟩ []
    ⟨"/a"⟩ ⟨false, false, true⟩ rfl rfl rfl rfl

/-- Claim C3: on a nonexistent path, `Open` without `create` fails
`NotFound`; with `create` (together with `read` or `write`) the empty file
is created before the host `fopen` is attempted, so the store handed to the
host open — and returned in either outcome — is the `CreateEmptyFile`
result, which contains the empty file whenever the host create succeeded. -/
theorem c3_open_nonexistent (arch : DiskArchive) (host : HostOracle)
    (fs : HostFS) (path : Path) (mode : Mode)
    (h : FileUtil.Exists fs (arch.mount_point ++ path.AsString) = false) :
    (mode.create_flag = false →
       (DiskFile.make arch path mode).Open host fs
         = (.error .FS_NotFound .FS .NotFound .Status, fs)) ∧
    (mode.create_flag = true →
     (mode.read_flag = true ∨ mode.write_flag = true) →
       (DiskFile.make arch path mode).Open host fs
         = (if host.open_ok = true then ResultCode.success
            else .error .FS_NotFound .FS .NotFound .Status,
            (FileUtil.CreateEmptyFile host fs (arch.mount_point ++ path.AsString)).2) ∧
       (host.create_ok = true →
         FileUtil.lookupPath ((DiskFile.make arch path mode).Open host fs).2
             (arch.mount_point ++ path.AsString) = some (.file []))) := by
  have hd := isDirectory_false_of_exists_false fs _ h
  refine ⟨?_, ?_⟩
  · intro hc
    simp [DiskFile.make, DiskFile.Open, hd, h, hc]
  · intro hc hrw
    have hbranch : (DiskFile.make arch path mode).Open host fs
        = (if host.open_ok = true then ResultCode.success
           else .error .FS_NotFound .FS .NotFound .Status,
           (FileUtil.CreateEmptyFile host fs (arch.mount_point ++ path.AsString)).2) := by
      rcases hrw with hflag | hflag <;>
        by_cases ho : host.open_ok = true <;>
          simp [DiskFile.make, DiskFile.Open, hd, h, hc, hflag, ho]
    refine ⟨hbranch, ?_⟩
    intro hcok
    rw [hbranch]
    simp [FileUtil.CreateEmptyFile, hcok, lookupPath_setPath]

/-- Claim C3 witness: write+create on a nonexistent path creates the file
empty and opens it. -/
theorem c3_witness :
    (DiskFile.make ⟨"/mnt"⟩ ⟨"/a"⟩ ⟨false, true, true⟩).Open
        ⟨true, true, true, 1, true⟩ []
      = (ResultCode.success, [("/mnt/a", FSNode.file [])]) ∧
    FileUtil.lookupPath
        ((DiskFile.make ⟨"/mnt"⟩ ⟨"/a"⟩ ⟨false, true, true⟩).Open
          ⟨true, true, true, 1, true⟩ []).2 "/mnt/a" = some (.file []) := by
  have h := (c3_open_nonexistent ⟨"/mnt"⟩ ⟨true, true, true, 1, true⟩ []
      ⟨"/a"⟩ ⟨false, true, true⟩ rfl).2 rfl (Or.inr rfl)
  exact ⟨by rw [h.1]; rfl, h.2 rfl⟩

/-- Claim C4: `DeleteFile` fails `NotAFile` on a directory (this check runs
first), `NotFound` on a missing path, and otherwise deletes — after which
the path no longer exists — or returns `NotAFile` when the host delete call
fails. -/
theorem c4_deleteFile_semantics (arch : DiskArchive) (host : HostOracle)
    (fs : HostFS) (path : Path) :
    (FileUtil.IsDirectory fs (arch.mount_point ++ path.AsString) = true →
       arch.DeleteFile host fs path
         = (.error .FS_NotAFile .FS .Canceled .Status, fs)) ∧
    (FileUtil.IsDirectory fs (arch.mount_point ++ path.AsString) = false →
     FileUtil.Exists fs (arch.mount_point ++ path.AsString) = false →
       arch.DeleteFile host fs path
         = (.error .FS_NotFound .FS .NotFound .Status, fs)) ∧
    (FileUtil.IsDirectory fs (arch.mount_point ++ path.AsString) = false →
     FileUtil.Exists fs (arch.mount_point ++ path.AsString) = true →
       (host.delete_ok = true →
          (arch.DeleteFile host fs path).1 = ResultCode.success ∧
          FileUtil.Exists (arch.DeleteFile host fs path).2
              (arch.mount_point ++ path.AsString) = false) ∧
       (host.delete_ok = false →
          arch.DeleteFile host fs path
            = (.error .FS_NotAFile .FS .Canceled .Status, fs))) := by
  refine ⟨?_, ?_, ?_⟩
  · intro h
    simp [DiskArchive.DeleteFile, h]
  · intro h1 h2
    simp [DiskArchive.DeleteFile, h1, h2]
  · intro h1 h2
    refine ⟨?_, ?_⟩
    · intro hdel
      simp [DiskArchive.DeleteFile, h1, h2, FileUtil.Delete, hdel,
        exists_removePath]
    · intro hdel
      simp [DiskArchive.DeleteFile, h1, h2, FileUtil.Delete, hdel]

/-- Claim C4 witness: deleting an existing concrete file succeeds and a
subsequent existence check fails. -/
theorem c4_witness :
    (DiskArchive.DeleteFile ⟨"/mnt"⟩ ⟨true, true, true, 1, true⟩
        [("/mnt/a", .file [1])] ⟨"/a"⟩).1 = ResultCode.success ∧
    FileUtil.Exists
        (DiskArchive.DeleteFile ⟨"/mnt"⟩ ⟨true, true, true, 1, true⟩
          [("/mnt/a", .file [1])] ⟨"/a"⟩).2 "/mnt/a" = false :=
  (c4_deleteFile_semantics ⟨"/mnt"⟩ ⟨true, true, true, 1, true⟩
      [("/mnt/a", .file [1])] ⟨"/a"⟩).2.2 rfl rfl |>.1 rfl

/-- Where `DiskFile::Open` can leave the store: unchanged, or — only when
`create` is set and the path did not exist — with a newly created empty
file at the resolved path. -/
theorem open_store_cases (f : DiskFile) (host : HostOracle) (fs : HostFS) :
    (f.Open host fs).2 = fs ∨
    (f.mode.create_flag = true ∧ FileUtil.Exists fs f.path = false ∧
     (f.Open host fs).2 = FileUtil.setPath fs f.path (.file [])) := by
  by_cases hdir : FileUtil.IsDirectory fs f.path = true
  · left
    simp [DiskFile.Open, hdir]
  · by_cases hc2 : f.mode.create_flag = true ∧ ¬ f.mode.read_flag = true
        ∧ ¬ f.mode.write_flag = true
    · left
      simp [DiskFile.Open, hdir, hc2]
    · by_cases hE : FileUtil.Exists fs f.path = true
      · left
        by_cases ho : host.open_ok = true <;>
          simp [DiskFile.Open, hdir, hc2, hE, ho] <;> split <;> rfl
      · by_cases hcf : f.mode.create_flag = true
        · have hrw : f.mode.read_flag = true ∨ f.mode.write_flag = true := by
            by_contra hcon
            push_neg at hcon
            exact hc2 ⟨hcf, hcon.1, hcon.2⟩
          by_cases hck : host.create_ok = true
          · right
            refine ⟨hcf, by simpa using hE, ?_⟩
            rcases hrw with hflag | hflag <;>
              by_cases ho : host.open_ok = true <;>
                simp [DiskFile.Open, hdir, hE, hcf, hflag,
                  FileUtil.CreateEmptyFile, hck, ho]
          · left
            rcases hrw with hflag | hflag <;>
              by_cases ho : host.open_ok = true <;>
                simp [DiskFile.Open, hdir, hE, hcf, hflag,
                  FileUtil.CreateEmptyFile, hck, ho]
        · left
          simp [DiskFile.Open, hdir, hc2, hE, hcf]

/-- Claim C5 counterexample: `OpenFile` with `create` set on a nonexistent
path can fail (host `fopen` refused) while having created the empty file —
a side effect despite the failure. -/
theorem c5_counterexample :
    (DiskArchive.OpenFile ⟨"/mnt"⟩ ⟨true, true, true, 1, false⟩ [] ⟨"/a"⟩
        ⟨false, true, true⟩).1
      = Except.error (.error .FS_NotFound .FS .NotFound .Status) ∧
    (DiskArchive.OpenFile ⟨"/mnt"⟩ ⟨true, true, true, 1, false⟩ [] ⟨"/a"⟩
        ⟨false, true, true⟩).2
      = [("/mnt/a", FSNode.file [])] ∧
    ([("/mnt/a", FSNode.file [])] : HostFS) ≠ [] :=
  ⟨rfl, rfl, by decide⟩

/-- Claim C5 (amended): a failed `OpenFile` leaves the backing store
unchanged, except that when the mode's `create` flag is set and the path
did not exist, the store may instead hold a newly created empty file at the
resolved path. -/
theorem c5_openFile_frame (arch : DiskArchive) (host : HostOracle)
    (fs : HostFS) (path : Path) (mode : Mode) (e : ResultCode)
    (he : (arch.OpenFile host fs path mode).1 = Except.error e) :
    (arch.OpenFile host fs path mode).2 = fs ∨
    (mode.create_flag = true ∧
     FileUtil.Exists fs (arch.mount_point ++ path.AsString) = false ∧
     (arch.OpenFile host fs path mode).2
       = FileUtil.setPath fs (arch.mount_point ++ path.AsString) (.file [])) := by
  have h2 : (arch.OpenFile host fs path mode).2
      = ((DiskFile.make arch path mode).Open host fs).2 := by
    by_cases hc : ((DiskFile.make arch path mode).Open host fs).1.IsError = true <;>
      simp [DiskArchive.OpenFile, hc]
  rcases open_store_cases (DiskFile.make arch path mode) host fs with h | ⟨h1, h2', h3⟩
  · left
    rw [h2, h]
  · right
    exact ⟨h1, h2', by rw [h2]; exact h3⟩

/-- Claim C5 witness: a failed open without `create` (read-only mode on a
nonexistent path) leaves the store unchanged. -/
theorem c5_witness :
    (DiskArchive.OpenFile ⟨"/mnt"⟩ ⟨true, true, true, 1, true⟩ [] ⟨"/a"⟩
        ⟨true, false, false⟩).2 = ([] : HostFS) :=
  (c5_openFile_frame ⟨"/mnt"⟩ ⟨true, true, true, 1, true⟩ [] ⟨"/a"⟩
      ⟨true, false, false⟩ (.error .FS_NotFound .FS .NotFound .Status)
      rfl).resolve_right (by decide)

/-- Claim C6: `Read` fails `InvalidOpenFlags` exactly when the handle has
neither `read` nor `write`, `Write` fails `InvalidOpenFlags` exactly when
it lacks `write`, and a handle with `write` can also be read. -/
theorem c6_read_write_flag_gates (f : DiskFile) (content : List Nat)
    (offset length : Nat) (flush : Bool) (buffer : List Nat) :
    ((f.Read content offset length
        = Except.error (.error .FS_InvalidOpenFlags .FS .Canceled .Status))
       ↔ (f.mode.read_flag = false ∧ f.mode.write_flag = false)) ∧
    ((∃ bytes, f.Read content offset length = Except.ok bytes)
       ↔ (f.mode.read_flag = true ∨ f.mode.write_flag = true)) ∧
    ((f.Write content offset length flush buffer
        = Except.error (.error .FS_InvalidOpenFlags .FS .Canceled .Status))
       ↔ f.mode.write_flag = false) ∧
    (f.mode.write_flag = true →
       f.Read content offset length
         = Except.ok ((content.drop offset).take length)) := by
  cases hr : f.mode.read_flag <;> cases hw : f.mode.write_flag <;>
    simp [DiskFile.Read, DiskFile.Write, hr, hw]

/-- Claim C6 witness: a write-only handle reads successfully; a handle with
neither flag fails `InvalidOpenFlags`. -/
theorem c6_witness :
    (⟨"/mnt/a", ⟨false, true, false⟩⟩ : DiskFile).Read [1, 2, 3] 1 2
      = Except.ok [2, 3] ∧
    (⟨"/mnt/a", ⟨false, false, false⟩⟩ : DiskFile).Read [1, 2, 3] 0 1
      = Except.error (.error .FS_InvalidOpenFlags .FS .Canceled .Status) :=
  ⟨(c6_read_write_flag_gates ⟨"/mnt/a", ⟨false, true, false⟩⟩ [1, 2, 3] 1 2
      true []).2.2.2 rfl,
   (c6_read_write_flag_gates ⟨"/mnt/a", ⟨false, false, false⟩⟩ [1, 2, 3] 0 1
      true []).1.mpr ⟨rfl, rfl⟩⟩

/-- Claim C10: once the directory and already-exists checks pass,
`CreateFile(path, 0)` reports success unconditionally — even when the host
empty-file creation fails and the store is left without the file. -/
theorem c10_createFile_zero_ignores_host_failure (arch : DiskArchive)
    (host : HostOracle) (fs : HostFS) (path : Path)
    (hd : FileUtil.IsDirectory fs (arch.mount_point ++ path.AsString) = false)
    (he : FileUtil.Exists fs (arch.mount_point ++ path.AsString) = false) :
    (arch.CreateFile host fs path 0).1 = ResultCode.success ∧
    (host.create_ok = false →
       arch.CreateFile host fs path 0 = (ResultCode.success, fs)) := by
  refine ⟨by simp [DiskArchive.CreateFile, hd, he], ?_⟩
  intro hc
  simp [DiskArchive.CreateFile, hd, he, FileUtil.CreateEmptyFile, hc]

/-- Claim C10 witness: with a host that refuses the empty-file creation,
`CreateFile("/a", 0)` still returns success and the store is unchanged. -/
theorem c10_witness :
    DiskArchive.CreateFile ⟨"/mnt"⟩ ⟨true, false, true, 1, true⟩ [] ⟨"/a"⟩ 0
      = (ResultCode.success, []) :=
  (c10_createFile_zero_ignores_host_failure ⟨"/mnt"⟩ ⟨true, false, true, 1, true⟩
      [] ⟨"/a"⟩ rfl rfl).2 rfl

end FileSys
